import Mathlib

/-!
Shallow embedding of the `BNR-Blog-Dockertest` phone-number storage layer
(`storage/adapter.go`, `storage/postgres/postgres_adapter.go`).

The postgres adapter is glue over `database/sql`: connection-string
construction from functional options, an idempotent table-creation step,
and four CRUD operations issuing parameterized SQL against a single table.
We embed

* the options accumulator `PgOptions`, the named option constructors the
  package defines (`WithPassword`, `WithTableName`) and `applyOpts`, which
  folds the options over the accumulator and renders the connection string
  exactly as the source's `fmt.Fprintf` calls do;
* `NewAdapter`'s initialization sequence, with the fallible environment
  steps (`sql.Open`, `db.Ping`, `createTable`) made explicit as an
  `InitEnv` record of optional error strings, mirroring which results the
  Go code checks and which it discards;
* the backing table targeted by the adapter as a `PgState`: an ordered
  list of rows plus the `SERIAL` sequence counter and the open/closed
  status of the connection handle.  Each CRUD operation is translated from
  the SQL statement the source builds: `INSERT ... RETURNING id` appends a
  row carrying the next sequence value, `UPDATE ... WHERE id=$2` rewrites
  the matching row's number in place, `DELETE ... WHERE id=$1` filters the
  matching rows out, `SELECT *` returns the rows.  A closed connection
  makes every operation return the driver's error, as the repository's
  tests exercise.
-/

namespace Dockertest

/-- `storage.PhoneNumber`: integer identifier plus number string. -/
structure PhoneNumber where
  ID : Int
  Number : String
deriving DecidableEq, Repr

/-- `postgres.PgOptions`: the options accumulator for connection variables. -/
structure PgOptions where
  password : String
  tableName : String
  sslMode : String
  host : String
  port : String
  userName : String
  dbName : String
deriving DecidableEq, Repr

/-- The named option constructors `postgres` defines for `NewAdapter`:
`WithPassword` and `WithTableName`.  Each denotes a Go closure mutating the
accumulator. -/
inductive PgOptionFunc where
  | WithPassword (password : String)
  | WithTableName (tableName : String)
deriving DecidableEq, Repr

/-- Applying one option closure to the accumulator: `WithPassword` stores
the password, `WithTableName` stores the table name. -/
def applyOpt : PgOptionFunc → PgOptions → PgOptions
  | .WithPassword p, o => { o with password := p }
  | .WithTableName t, o => { o with tableName := t }

/-- The loop at the head of `applyOpts`: each option is applied to the
shared accumulator in call order. -/
def applyOptList (connVars : PgOptions) (pgOpts : List PgOptionFunc) : PgOptions :=
  pgOpts.foldl (fun o f => applyOpt f o) connVars

/-- `postgres.applyOpts`: applies the options, then renders
`host=%s port=%s dbname=%s user=%s sslmode=%s` and, when the password is
non-empty, appends ` password=%s`, exactly as the two `fmt.Fprintf` calls
in the source do. -/
def applyOpts (connVars : PgOptions) (pgOpts : List PgOptionFunc) : String :=
  let cv := applyOptList connVars pgOpts
  "host=" ++ cv.host ++ " port=" ++ cv.port ++ " dbname=" ++ cv.dbName ++
    " user=" ++ cv.userName ++ " sslmode=" ++ cv.sslMode ++
    (if cv.password ≠ "" then " password=" ++ cv.password else "")

/-- The accumulator `NewAdapter` builds before applying options:
`&PgOptions{host: host, port: port, dbName: dbName, userName: user,
sslMode: "disable"}`; the omitted fields get Go's zero value `""`. -/
def initConnVars (host port user dbName : String) : PgOptions :=
  { host := host, port := port, dbName := dbName, userName := user,
    sslMode := "disable", password := "", tableName := "" }

/-- The connection string viewed as its list of `key=value` pairs, in the
order the `Fprintf` format fixes: host, port, dbname, user, sslmode, then
password when one is set.  Spec-shaped rendering of section 6, compared
with `applyOpts` below. -/
def connStringPairs (cv : PgOptions) : List String :=
  ["host=" ++ cv.host, "port=" ++ cv.port, "dbname=" ++ cv.dbName,
    "user=" ++ cv.userName, "sslmode=" ++ cv.sslMode] ++
    (if cv.password = "" then [] else ["password=" ++ cv.password])

/-- `postgres.PgAdapter`: the table name the adapter formats into every
statement.  The `*sql.DB` handle is left out here; its open/closed status
lives in `PgState` below. -/
structure PgAdapter where
  tableName : String
deriving DecidableEq, Repr

/-- The outcomes of the environment-dependent initialization steps of
`NewAdapter`: `sql.Open`, `db.Ping`, and the `conn.Exec` inside
`createTable`.  `some e` means the step fails with error `e`. -/
structure InitEnv where
  openErr : Option String
  pingErr : Option String
  createTableErr : Option String
deriving DecidableEq, Repr

/-- `postgres.NewAdapter`: builds `connVars` with `sslMode: "disable"`,
applies the options, opens the connection, pings it, defaults the table
name to the database name when the option left it empty, and discards the
result of `createTable` (`_ = adapter.createTable(tableName)`). -/
def NewAdapter (env : InitEnv) (host port user dbName : String)
    (pgOpts : List PgOptionFunc) : Except String PgAdapter :=
  let connVars := applyOptList (initConnVars host port user dbName) pgOpts
  match env.openErr with
  | some e => .error e
  | none =>
    match env.pingErr with
    | some e => .error e
    | none =>
      let tableName := if connVars.tableName ≠ "" then connVars.tableName else dbName
      .ok { tableName := tableName }

/-- `createTable`'s statement: `CREATE TABLE %s (id SERIAL PRIMARY KEY,number TEXT);`. -/
def createTableStmt (tableName : String) : String :=
  "CREATE TABLE " ++ tableName ++ " (id SERIAL PRIMARY KEY,number TEXT);"

/-- `CreatePhoneNumber`'s statement (the source has a literal tab between
`(number)` and `VALUES`). -/
def createPhoneNumberStmt (a : PgAdapter) : String :=
  "INSERT INTO " ++ a.tableName ++ " (number)\tVALUES ($1) RETURNING id"

/-- `UpdatePhoneNumber`'s statement. -/
def updatePhoneNumberStmt (a : PgAdapter) : String :=
  "UPDATE " ++ a.tableName ++ " SET number=$1 WHERE id=$2"

/-- `GetPhoneNumbers`'s statement. -/
def getPhoneNumbersStmt (a : PgAdapter) : String :=
  "SELECT * FROM " ++ a.tableName

/-- `RemovePhoneNumber`'s statement. -/
def removePhoneNumberStmt (a : PgAdapter) : String :=
  "DELETE FROM " ++ a.tableName ++ " WHERE id=$1"

/-- The backing table the adapter's statements target: its rows in store
order, the `SERIAL` sequence value the next insert will draw, and whether
the connection handle is still open. -/
structure PgState where
  rows : List PhoneNumber
  nextId : Int
  connOpen : Bool
deriving DecidableEq, Repr

/-- The error `database/sql` reports once the handle was closed; the
repository's tests drive each operation into this case. -/
def closedConnErr : String := "sql: database is closed"

/-- `CreatePhoneNumber`: `INSERT INTO t (number) VALUES ($1) RETURNING id`
appends a row carrying the next `SERIAL` value and returns that value. -/
def CreatePhoneNumber (s : PgState) (number : String) : Except String (Int × PgState) :=
  if s.connOpen then
    .ok (s.nextId,
      { s with rows := s.rows ++ [⟨s.nextId, number⟩], nextId := s.nextId + 1 })
  else .error closedConnErr

/-- `GetPhoneNumbers`: `SELECT * FROM t` scans every row in store order. -/
def GetPhoneNumbers (s : PgState) : Except String (List PhoneNumber) :=
  if s.connOpen then .ok s.rows else .error closedConnErr

/-- `UpdatePhoneNumber`: `UPDATE t SET number=$1 WHERE id=$2` rewrites the
number of each row whose id matches, in place. -/
def UpdatePhoneNumber (s : PgState) (number : PhoneNumber) : Except String PgState :=
  if s.connOpen then
    .ok { s with rows := s.rows.map (fun r =>
      if r.ID = number.ID then { r with Number := number.Number } else r) }
  else .error closedConnErr

/-- `RemovePhoneNumber`: `DELETE FROM t WHERE id=$1` drops each row whose
id matches; deleting nothing is still a success. -/
def RemovePhoneNumber (s : PgState) (id : Int) : Except String PgState :=
  if s.connOpen then
    .ok { s with rows := s.rows.filter (fun r => r.ID ≠ id) }
  else .error closedConnErr

/-- Invariant of every table reachable through the adapter: every row's id
was drawn from the sequence, so it is below the next sequence value, and
`id SERIAL PRIMARY KEY` keeps ids distinct. -/
def WellFormed (s : PgState) : Prop :=
  (∀ r ∈ s.rows, r.ID < s.nextId) ∧ (s.rows.map PhoneNumber.ID).Nodup

instance (s : PgState) : Decidable (WellFormed s) := by
  unfold WellFormed; infer_instance

/-- Whether a driver error reports that the target table already exists,
the condition `NewAdapter`'s comment singles out: postgres phrases it as
`pq: relation "t" already exists`. -/
def isTableExistsErr (e : String) : Bool :=
  ("already exists".data).isSuffixOf e.data

theorem applyOpts_eq_intercalate (connVars : PgOptions) (pgOpts : List PgOptionFunc) :
    applyOpts connVars pgOpts =
      String.intercalate " " (connStringPairs (applyOptList connVars pgOpts)) := by
  unfold applyOpts connStringPairs
  set cv := applyOptList connVars pgOpts
  by_cases hp : cv.password = "" <;>
  · simp [hp, String.intercalate, String.intercalate.go]
    apply String.ext
    simp [String.data_append]

theorem applyOpt_preserves_conn_fields (f : PgOptionFunc) (o : PgOptions) :
    (applyOpt f o).host = o.host ∧ (applyOpt f o).port = o.port ∧
    (applyOpt f o).dbName = o.dbName ∧ (applyOpt f o).userName = o.userName ∧
    (applyOpt f o).sslMode = o.sslMode := by
  cases f <;> exact ⟨rfl, rfl, rfl, rfl, rfl⟩

theorem applyOptList_preserves_conn_fields (o : PgOptions) (l : List PgOptionFunc) :
    (applyOptList o l).host = o.host ∧ (applyOptList o l).port = o.port ∧
    (applyOptList o l).dbName = o.dbName ∧ (applyOptList o l).userName = o.userName ∧
    (applyOptList o l).sslMode = o.sslMode := by
  induction l generalizing o with
  | nil => exact ⟨rfl, rfl, rfl, rfl, rfl⟩
  | cons f l ih =>
    have hstep := applyOpt_preserves_conn_fields f o
    have htail := ih (applyOpt f o)
    refine ⟨?_, ?_, ?_, ?_, ?_⟩ <;>
      simp_all [applyOptList]

/-- C1: on a well-formed store with a usable connection, `CreatePhoneNumber`
returns an identifier carried by no existing record, and the record with
that identifier and the given number string appears in the rows a
subsequent `GetPhoneNumbers` returns. -/
theorem createPhoneNumber_fresh_and_visible (s : PgState) (number : String)
    (hw : WellFormed s) (hc : s.connOpen = true) :
    ∃ id s2, CreatePhoneNumber s number = .ok (id, s2) ∧
      (∀ r ∈ s.rows, r.ID ≠ id) ∧
      GetPhoneNumbers s2 = .ok s2.rows ∧
      (⟨id, number⟩ : PhoneNumber) ∈ s2.rows := by
  refine ⟨s.nextId,
    { s with rows := s.rows ++ [⟨s.nextId, number⟩], nextId := s.nextId + 1 },
    ?_, ?_, ?_, ?_⟩
  · simp [CreatePhoneNumber, hc]
  · intro r hr
    exact ne_of_lt (hw.1 r hr)
  · simp [GetPhoneNumbers, hc]
  · simp

theorem createPhoneNumber_fresh_and_visible_witness :
    WellFormed ⟨[⟨1, "1234565454"⟩], 2, true⟩ ∧
    (⟨[⟨1, "1234565454"⟩], 2, true⟩ : PgState).connOpen = true ∧
    ∃ id s2,
      CreatePhoneNumber ⟨[⟨1, "1234565454"⟩], 2, true⟩ "4565434343" = .ok (id, s2) ∧
      (∀ r ∈ (⟨[⟨1, "1234565454"⟩], 2, true⟩ : PgState).rows, r.ID ≠ id) ∧
      GetPhoneNumbers s2 = .ok s2.rows ∧
      (⟨id, "4565434343"⟩ : PhoneNumber) ∈ s2.rows :=
  ⟨by decide, rfl,
    createPhoneNumber_fresh_and_visible ⟨[⟨1, "1234565454"⟩], 2, true⟩ "4565434343"
      (by decide) rfl⟩

/-- C5: on a store with a usable connection containing a record with
identifier `i`, `UpdatePhoneNumber {i, v}` succeeds; the identifier at
every position is unchanged (so the relative order of records is
unchanged), the record `{i, v}` is present afterwards, and positionally a
row is rewritten to `{i, v}` exactly when its identifier is `i` —
every other record is exactly as before. -/
theorem updatePhoneNumber_frame (s : PgState) (i : Int) (v : String)
    (hc : s.connOpen = true) (hmem : ∃ r ∈ s.rows, r.ID = i) :
    ∃ s2, UpdatePhoneNumber s ⟨i, v⟩ = .ok s2 ∧
      s2.rows.map PhoneNumber.ID = s.rows.map PhoneNumber.ID ∧
      (⟨i, v⟩ : PhoneNumber) ∈ s2.rows ∧
      s2.rows.length = s.rows.length ∧
      (∀ k (hk : k < s.rows.length) (hk2 : k < s2.rows.length),
        s2.rows.get ⟨k, hk2⟩ =
          if (s.rows.get ⟨k, hk⟩).ID = i then ⟨i, v⟩ else s.rows.get ⟨k, hk⟩) := by
  refine ⟨{ s with rows := s.rows.map (fun r =>
      if r.ID = i then { r with Number := v } else r) }, ?_, ?_, ?_, ?_, ?_⟩
  · simp [UpdatePhoneNumber, hc]
  · simp only [List.map_map]
    apply List.map_congr_left
    intro r _
    by_cases h : r.ID = i <;> simp [h]
  · obtain ⟨r, hr, hid⟩ := hmem
    have : (⟨i, v⟩ : PhoneNumber) =
        (fun r => if r.ID = i then { r with Number := v } else r) r := by
      simp [hid]
    rw [this]
    exact List.mem_map_of_mem _ hr
  · simp
  · intro k hk hk2
    simp only [List.get_eq_getElem, List.getElem_map]
    by_cases h : (s.rows.get ⟨k, hk⟩).ID = i
    · simp only [List.get_eq_getElem] at h
      simp [h]
    · simp only [List.get_eq_getElem] at h
      simp [h]

theorem updatePhoneNumber_frame_witness :
    (⟨[⟨1, "1234565454"⟩, ⟨2, "4565434343"⟩], 3, true⟩ : PgState).connOpen = true ∧
    (∃ r ∈ (⟨[⟨1, "1234565454"⟩, ⟨2, "4565434343"⟩], 3, true⟩ : PgState).rows, r.ID = 1) ∧
    ∃ s2,
      UpdatePhoneNumber ⟨[⟨1, "1234565454"⟩, ⟨2, "4565434343"⟩], 3, true⟩ ⟨1, "9999999999"⟩ = .ok s2 ∧
      s2.rows.map PhoneNumber.ID =
        (⟨[⟨1, "1234565454"⟩, ⟨2, "4565434343"⟩], 3, true⟩ : PgState).rows.map PhoneNumber.ID ∧
      (⟨1, "9999999999"⟩ : PhoneNumber) ∈ s2.rows ∧
      s2.rows.length = (⟨[⟨1, "1234565454"⟩, ⟨2, "4565434343"⟩], 3, true⟩ : PgState).rows.length ∧
      (∀ k (hk : k < (⟨[⟨1, "1234565454"⟩, ⟨2, "4565434343"⟩], 3, true⟩ : PgState).rows.length)
          (hk2 : k < s2.rows.length),
        s2.rows.get ⟨k, hk2⟩ =
          if ((⟨[⟨1, "1234565454"⟩, ⟨2, "4565434343"⟩], 3, true⟩ : PgState).rows.get ⟨k, hk⟩).ID = 1
          then ⟨1, "9999999999"⟩
          else (⟨[⟨1, "1234565454"⟩, ⟨2, "4565434343"⟩], 3, true⟩ : PgState).rows.get ⟨k, hk⟩) :=
  ⟨rfl, ⟨⟨1, "1234565454"⟩, by simp⟩,
    updatePhoneNumber_frame ⟨[⟨1, "1234565454"⟩, ⟨2, "4565434343"⟩], 3, true⟩ 1 "9999999999"
      rfl ⟨⟨1, "1234565454"⟩, by simp⟩⟩

/-- C6: with a usable connection, `RemovePhoneNumber i` succeeds, no record
with identifier `i` appears in the rows a subsequent `GetPhoneNumbers`
returns, and when no record carried identifier `i` in the first place the
store state is completely unchanged and no error is returned. -/
theorem removePhoneNumber_absent_and_noop (s : PgState) (i : Int)
    (hc : s.connOpen = true) :
    ∃ s2, RemovePhoneNumber s i = .ok s2 ∧
      GetPhoneNumbers s2 = .ok s2.rows ∧
      (∀ r ∈ s2.rows, r.ID ≠ i) ∧
      ((∀ r ∈ s.rows, r.ID ≠ i) → s2 = s) := by
  refine ⟨{ s with rows := s.rows.filter (fun r => r.ID ≠ i) }, ?_, ?_, ?_, ?_⟩
  · simp [RemovePhoneNumber, hc]
  · simp [GetPhoneNumbers, hc]
  · intro r hr
    have := List.of_mem_filter hr
    simpa using this
  · intro hnone
    have : s.rows.filter (fun r => r.ID ≠ i) = s.rows := by
      apply List.filter_eq_self.mpr
      intro r hr
      simpa using hnone r hr
    rw [this]

theorem removePhoneNumber_absent_and_noop_witness :
    (⟨[⟨2, "4565434343"⟩], 3, true⟩ : PgState).connOpen = true ∧
    ∃ s2,
      RemovePhoneNumber ⟨[⟨2, "4565434343"⟩], 3, true⟩ 1 = .ok s2 ∧
      GetPhoneNumbers s2 = .ok s2.rows ∧
      (∀ r ∈ s2.rows, r.ID ≠ 1) ∧
      ((∀ r ∈ (⟨[⟨2, "4565434343"⟩], 3, true⟩ : PgState).rows, r.ID ≠ 1) →
        s2 = ⟨[⟨2, "4565434343"⟩], 3, true⟩) :=
  ⟨rfl, removePhoneNumber_absent_and_noop ⟨[⟨2, "4565434343"⟩], 3, true⟩ 1 rfl⟩

/-- C7: with a usable connection over an empty table, `GetPhoneNumbers`
returns the empty sequence and no error. -/
theorem getPhoneNumbers_empty_table (s : PgState) (hc : s.connOpen = true)
    (he : s.rows = []) : GetPhoneNumbers s = .ok [] := by
  simp [GetPhoneNumbers, hc, he]

theorem getPhoneNumbers_empty_table_witness :
    GetPhoneNumbers ⟨[], 1, true⟩ = .ok [] :=
  getPhoneNumbers_empty_table ⟨[], 1, true⟩ rfl rfl

/-- C2 (amended): during `NewAdapter`, a failure of the table-creation
step is suppressed whatever its cause — the environment's `createTableErr`
never influences the outcome — while a failure of `sql.Open` or of the
`db.Ping` liveness check is surfaced as the returned error. -/
theorem newAdapter_surfaces_open_ping_failures_only (env : InitEnv)
    (host port user dbName : String) (pgOpts : List PgOptionFunc) :
    (env.openErr = none → env.pingErr = none →
      ∃ a, NewAdapter env host port user dbName pgOpts = .ok a) ∧
    (∀ e, env.openErr = some e →
      NewAdapter env host port user dbName pgOpts = .error e) ∧
    (∀ e, env.openErr = none → env.pingErr = some e →
      NewAdapter env host port user dbName pgOpts = .error e) := by
  refine ⟨?_, ?_, ?_⟩
  · intro ho hp
    unfold NewAdapter
    rw [ho, hp]
    exact ⟨_, rfl⟩
  · intro e he
    simp [NewAdapter, he]
  · intro e ho hp
    simp [NewAdapter, ho, hp]

theorem newAdapter_surfaces_open_ping_failures_only_witness :
    ∃ a, NewAdapter ⟨none, none, some "pq: relation \"phone_numbers\" already exists"⟩
      "localhost" "5432" "postgres" "phone_numbers" [] = .ok a :=
  (newAdapter_surfaces_open_ping_failures_only
    ⟨none, none, some "pq: relation \"phone_numbers\" already exists"⟩
    "localhost" "5432" "postgres" "phone_numbers" []).1 rfl rfl

theorem newAdapter_suppresses_unrelated_createTable_failure :
    isTableExistsErr "pq: permission denied" = false ∧
    (⟨none, none, some "pq: permission denied"⟩ : InitEnv).createTableErr =
      some "pq: permission denied" ∧
    NewAdapter ⟨none, none, some "pq: permission denied"⟩
      "localhost" "5432" "postgres" "phone_numbers" [] = .ok ⟨"phone_numbers"⟩ :=
  ⟨by decide, rfl, rfl⟩

/-- C3 (amended): construction recognizes exactly two named options —
`WithPassword` sets the password field and `WithTableName` sets the
table-name field of the options accumulator — and no option function the
package defines sets the TLS-mode field, which keeps the value the
accumulator started with. -/
theorem pgOption_constructors_set_fields (o : PgOptions) (s : String) :
    applyOpt (.WithPassword s) o = { o with password := s } ∧
    applyOpt (.WithTableName s) o = { o with tableName := s } ∧
    (∀ f : PgOptionFunc, (applyOpt f o).sslMode = o.sslMode) := by
  refine ⟨rfl, rfl, ?_⟩
  intro f
  cases f <;> rfl

theorem no_tls_option_function :
    ¬ ∃ f : PgOptionFunc,
        (applyOpt f (initConnVars "localhost" "5432" "postgres" "phone_numbers")).sslMode ≠
          (initConnVars "localhost" "5432" "postgres" "phone_numbers").sslMode := by
  rintro ⟨f, hf⟩
  cases f <;> exact hf rfl

/-- C4: from `NewAdapter`'s accumulator, `applyOpts` renders exactly the
space-separated `key=value` pairs host, port, dbname, user, sslmode in
that order, the password pair appears if and only if the accumulated
password is non-empty, and the sslmode value is `disable` for every option
list (no option touches it). -/
theorem applyOpts_connString_format (host port user dbName : String)
    (pgOpts : List PgOptionFunc) :
    applyOpts (initConnVars host port user dbName) pgOpts =
      String.intercalate " "
        (["host=" ++ host, "port=" ++ port, "dbname=" ++ dbName,
          "user=" ++ user, "sslmode=disable"] ++
          (if (applyOptList (initConnVars host port user dbName) pgOpts).password = ""
           then []
           else ["password=" ++
             (applyOptList (initConnVars host port user dbName) pgOpts).password])) := by
  rw [applyOpts_eq_intercalate]
  obtain ⟨h1, h2, h3, h4, h5⟩ :=
    applyOptList_preserves_conn_fields (initConnVars host port user dbName) pgOpts
  unfold connStringPairs
  rw [h1, h2, h3, h4, h5]
  rfl

/-- C8: when the options leave the table name empty, `NewAdapter` uses the
database name as the table name, and the table-creation statement and
every CRUD statement of the resulting adapter format that database name
into their SQL text. -/
theorem tableName_defaults_to_dbName (env : InitEnv) (host port user dbName : String)
    (pgOpts : List PgOptionFunc) (ho : env.openErr = none) (hp : env.pingErr = none)
    (ht : (applyOptList (initConnVars host port user dbName) pgOpts).tableName = "") :
    NewAdapter env host port user dbName pgOpts = .ok ⟨dbName⟩ ∧
    createTableStmt (PgAdapter.mk dbName).tableName =
      "CREATE TABLE " ++ dbName ++ " (id SERIAL PRIMARY KEY,number TEXT);" ∧
    createPhoneNumberStmt ⟨dbName⟩ =
      "INSERT INTO " ++ dbName ++ " (number)\tVALUES ($1) RETURNING id" ∧
    updatePhoneNumberStmt ⟨dbName⟩ = "UPDATE " ++ dbName ++ " SET number=$1 WHERE id=$2" ∧
    getPhoneNumbersStmt ⟨dbName⟩ = "SELECT * FROM " ++ dbName ∧
    removePhoneNumberStmt ⟨dbName⟩ = "DELETE FROM " ++ dbName ++ " WHERE id=$1" := by
  refine ⟨?_, rfl, rfl, rfl, rfl, rfl⟩
  simp [NewAdapter, ho, hp, ht]

theorem tableName_defaults_to_dbName_witness :
    (⟨none, none, none⟩ : InitEnv).openErr = none ∧
    (⟨none, none, none⟩ : InitEnv).pingErr = none ∧
    (applyOptList (initConnVars "localhost" "5432" "postgres" "phone_numbers")
      [.WithTableName ""]).tableName = "" ∧
    NewAdapter ⟨none, none, none⟩ "localhost" "5432" "postgres" "phone_numbers"
      [.WithTableName ""] = .ok ⟨"phone_numbers"⟩ :=
  ⟨rfl, rfl, rfl,
    (tableName_defaults_to_dbName ⟨none, none, none⟩ "localhost" "5432" "postgres"
      "phone_numbers" [.WithTableName ""] rfl rfl rfl).1⟩

/-- C9 (amended): on an accumulator whose password field is empty — as the
accumulator `NewAdapter` builds always is when the options are applied —
passing `WithPassword ""` is indistinguishable from passing no password
option: `applyOpts` produces the identical connection string.  (On an
accumulator whose password is already non-empty the two differ, see the
counterexample.) -/
theorem withPassword_empty_noop_on_empty_password (cv : PgOptions)
    (opts : List PgOptionFunc) (h : cv.password = "") :
    applyOpts cv (.WithPassword "" :: opts) = applyOpts cv opts := by
  have hfix : applyOpt (.WithPassword "") cv = cv := by
    cases cv
    simp_all [applyOpt]
  unfold applyOpts applyOptList
  simp [hfix]

theorem withPassword_empty_noop_on_empty_password_witness :
    (initConnVars "localhost" "5432" "postgres" "phone_numbers").password = "" ∧
    applyOpts (initConnVars "localhost" "5432" "postgres" "phone_numbers")
        [.WithPassword "", .WithTableName "numbers"] =
      applyOpts (initConnVars "localhost" "5432" "postgres" "phone_numbers")
        [.WithTableName "numbers"] :=
  ⟨rfl, withPassword_empty_noop_on_empty_password
    (initConnVars "localhost" "5432" "postgres" "phone_numbers")
    [.WithTableName "numbers"] rfl⟩

theorem withPassword_empty_distinguishable :
    applyOpts ⟨"secret", "", "disable", "localhost", "5432", "postgres", "phone_numbers"⟩
        [.WithPassword ""] ≠
      applyOpts ⟨"secret", "", "disable", "localhost", "5432", "postgres", "phone_numbers"⟩
        [] := by
  decide

/-- C10: `applyOpts` is deterministic — equal accumulators and equal
option lists give equal connection strings — and its output always lists
the `key=value` pairs in the fixed order host, port, dbname, user,
sslmode, then password when one is present. -/
theorem applyOpts_deterministic_and_ordered (cv cv2 : PgOptions)
    (opts opts2 : List PgOptionFunc) (hcv : cv = cv2) (hopts : opts = opts2) :
    applyOpts cv opts = applyOpts cv2 opts2 ∧
    applyOpts cv opts = String.intercalate " "
      (["host=" ++ (applyOptList cv opts).host, "port=" ++ (applyOptList cv opts).port,
        "dbname=" ++ (applyOptList cv opts).dbName,
        "user=" ++ (applyOptList cv opts).userName,
        "sslmode=" ++ (applyOptList cv opts).sslMode] ++
        (if (applyOptList cv opts).password = "" then []
         else ["password=" ++ (applyOptList cv opts).password])) := by
  subst hcv
  subst hopts
  exact ⟨rfl, applyOpts_eq_intercalate cv opts⟩

theorem applyOpts_deterministic_and_ordered_witness :
    applyOpts (initConnVars "localhost" "5432" "postgres" "phone_numbers")
        [.WithPassword "pw"] =
      applyOpts (initConnVars "localhost" "5432" "postgres" "phone_numbers")
        [.WithPassword "pw"] ∧
    applyOpts (initConnVars "localhost" "5432" "postgres" "phone_numbers")
        [.WithPassword "pw"] =
      String.intercalate " "
        (["host=" ++ (applyOptList (initConnVars "localhost" "5432" "postgres"
            "phone_numbers") [.WithPassword "pw"]).host,
          "port=" ++ (applyOptList (initConnVars "localhost" "5432" "postgres"
            "phone_numbers") [.WithPassword "pw"]).port,
          "dbname=" ++ (applyOptList (initConnVars "localhost" "5432" "postgres"
            "phone_numbers") [.WithPassword "pw"]).dbName,
          "user=" ++ (applyOptList (initConnVars "localhost" "5432" "postgres"
            "phone_numbers") [.WithPassword "pw"]).userName,
          "sslmode=" ++ (applyOptList (initConnVars "localhost" "5432" "postgres"
            "phone_numbers") [.WithPassword "pw"]).sslMode] ++
          (if (applyOptList (initConnVars "localhost" "5432" "postgres"
              "phone_numbers") [.WithPassword "pw"]).password = "" then []
           else ["password=" ++ (applyOptList (initConnVars "localhost" "5432" "postgres"
              "phone_numbers") [.WithPassword "pw"]).password])) :=
  applyOpts_deterministic_and_ordered
    (initConnVars "localhost" "5432" "postgres" "phone_numbers")
    (initConnVars "localhost" "5432" "postgres" "phone_numbers")
    [.WithPassword "pw"] [.WithPassword "pw"] rfl rfl

end Dockertest
